import Mathlib

/-!
Shallow embedding of `src/docs/task_converter.py`, the markdown
task-specification compiler of this repository.  Markdown documents are
modelled as Lean `String`s and each Python function is translated to a Lean
function of the same name.  The Python regular expressions are rendered as
explicit character scans; a `re.MULTILINE` pattern that constrains a single
line is rendered line by line (the exotic situation in which a `\s+` inside
such a pattern crosses a newline is outside the model).  File and console
I/O (`load_file`, `print`, progress callbacks) are abstracted away: functions
receive the file's text directly, and raised exceptions are modelled with
`Except`.
-/

/-- Python's whitespace class `\s` (also the default set for `str.strip`). -/
def isWsChar (c : Char) : Bool :=
  c = ' ' || c = '\t' || c = '\n' || c = '\r' || c = '\x0b' || c = '\x0c'

/-- The backtick character, via its code point. -/
def btChar : Char := Char.ofNat 96

/-- Python `str.strip` on a character list. -/
def pyStripData (l : List Char) : List Char :=
  ((l.dropWhile isWsChar).reverse.dropWhile isWsChar).reverse

/-- Python `str.strip`. -/
def pyStrip (s : String) : String := ⟨pyStripData s.data⟩

/-- Python `sep.join(items)`. -/
def pyJoin (sep : String) : List String → String
  | [] => ""
  | [x] => x
  | x :: y :: xs => x ++ sep ++ pyJoin sep (y :: xs)

/-- Split a character list at newline characters (`"\n"`-separated lines; a
trailing newline yields a final empty line). -/
def linesSplit : List Char → List (List Char)
  | [] => [[]]
  | c :: t =>
    if c = '\n' then [] :: linesSplit t
    else
      match linesSplit t with
      | [] => [[c]]
      | l :: ls => (c :: l) :: ls

/-- The lines of a document. -/
def linesOf (md : String) : List String := (linesSplit md.data).map fun l => ⟨l⟩

/-- Python `str.splitlines` (used on the newline-separated step blocks). -/
def pySplitLines (s : String) : List String :=
  match s.data with
  | [] => []
  | cs =>
    let ps := linesSplit cs
    (if ps.getLast? = some [] then ps.dropLast else ps).map fun l => ⟨l⟩

/-- Python's substring test `pat in s`, on character lists. -/
def containsData (pat : List Char) : List Char → Bool
  | [] => pat.isEmpty
  | c :: t => pat.isPrefixOf (c :: t) || containsData pat t

/-- Drop everything up to and including the first occurrence of `pat`
(`None` when `pat` does not occur): the scanning part of `re.search`. -/
def dropAfterFirst (pat : List Char) : List Char → Option (List Char)
  | [] => if pat.isEmpty then some [] else none
  | c :: t =>
    if pat.isPrefixOf (c :: t) then some ((c :: t).drop pat.length)
    else dropAfterFirst pat t

/-- Case-insensitive variant of `dropAfterFirst` (for `re.IGNORECASE`). -/
def dropAfterFirstCI (pat : List Char) : List Char → Option (List Char)
  | [] => if pat.isEmpty then some [] else none
  | c :: t =>
    if (pat.map Char.toLower).isPrefixOf ((c :: t).map Char.toLower) then
      some ((c :: t).drop pat.length)
    else dropAfterFirstCI pat t

/-- Lazy capture for `(.+?)`/`(.*?)` followed by the lookahead `(?=\n##|\Z)`
under `re.DOTALL`: keep consuming characters (accumulated reversed in `acc`)
until the remaining text starts with `stop` or runs out. -/
def lazyGo (stop : List Char) (acc : List Char) : List Char → List Char
  | [] => acc.reverse
  | c :: t =>
    if stop.isPrefixOf (c :: t) then acc.reverse
    else lazyGo stop (c :: acc) t

/-- One line of `extract_title`'s pattern `^#\s+(.+)$`: a `#`, at least one
whitespace character, then at least one further character.  The greedy `\s+`
backtracks minimally, so the capture starts at the first non-whitespace
character when the line has one, and otherwise (an all-whitespace tail of at
least two characters) it is the line's final character. -/
def titleCapture (l : String) : Option String :=
  match l.data with
  | '#' :: r =>
    match r with
    | [] => none
    | c :: _ =>
      if isWsChar c then
        match r.dropWhile isWsChar with
        | [] =>
          match r with
          | _ :: _ :: _ => some ⟨[r.getLastD ' ']⟩
          | _ => none
        | t => some ⟨t⟩
      else none
  | _ => none

/-- `extract_title`: first line matching `^#\s+(.+)$` (re.MULTILINE), with the
sentinel `"Untitled Task"` when the search fails. -/
def extract_title (md : String) : String :=
  ((linesOf md).findSome? titleCapture).getD "Untitled Task"

/-- `extract_objective`: `re.search(r'## Objective\n(.+?)(?=\n##|\Z)', md,
re.DOTALL)` — case-sensitive — then `strip`; `""` when the search fails. -/
def extract_objective (md : String) : String :=
  match dropAfterFirst "## Objective\n".data md.data with
  | none => ""
  | some [] => ""
  | some (c :: rest) => pyStrip ⟨lazyGo "\n##".data [c] rest⟩

/-- One scan position of the requirement pattern `\d+\.\s+\[\s?\]\s*(.+)`
(`re.findall`, tried left to right inside a line): digits, a dot, whitespace,
an unchecked checkbox and at least one further character.  The stripped
capture equals the stripped text after the checkbox. -/
def reqScan : List Char → Option String
  | [] => none
  | c :: t =>
    if c.isDigit then
      match (c :: t).dropWhile Char.isDigit with
      | '.' :: r2 =>
        if (r2.takeWhile isWsChar).isEmpty then reqScan t
        else
          match r2.dropWhile isWsChar with
          | '[' :: ']' :: r4 => if r4.isEmpty then reqScan t else some (pyStrip ⟨r4⟩)
          | '[' :: d :: ']' :: r4 =>
            if isWsChar d then (if r4.isEmpty then reqScan t else some (pyStrip ⟨r4⟩))
            else reqScan t
          | _ => reqScan t
      | _ => reqScan t
    else reqScan t

/-- `extract_requirements`: find the section after `## Requirements\n`
(case-sensitive) up to the next `\n##` or the end, then collect all
requirement matches, one per line. -/
def extract_requirements (md : String) : List String :=
  match dropAfterFirst "## Requirements\n".data md.data with
  | none => []
  | some rest => (linesSplit (lazyGo "\n##".data [] rest)).filterMap reqScan

/-- Scan one line for ``- \[ \] Validate `([^`]+)`\n``: the literal marker, a
nonempty run without backticks, and the closing backtick as the line's last
character (otherwise the required `\n` cannot follow). -/
def vScan : List Char → Option String
  | [] => none
  | c :: t =>
    if "- [ ] Validate `".data.isPrefixOf (c :: t) then
      let rest := (c :: t).drop 16
      let run := rest.takeWhile fun d => d ≠ btChar
      if run.isEmpty then vScan t
      else if rest.drop run.length = [btChar] then some ⟨run⟩
      else vScan t
    else vScan t

/-- One line of the step-block pattern `\s{3,}- \[ \].+`: at least three
leading whitespace characters, the unchecked checkbox, and at least one
further character. -/
def isBlockLine (l : String) : Bool :=
  decide (3 ≤ (l.data.takeWhile isWsChar).length) &&
    (let rest := l.data.dropWhile isWsChar
     "- [ ]".data.isPrefixOf rest && decide (6 ≤ rest.length))

/-- The scanning loop of `extract_validation_tasks`'s `findall`: a matching
`Validate` line (which must be followed by a newline, i.e. not be the last
line) captures the following run of step-block lines, each with its newline;
scanning resumes after the consumed block.  Every step consumes at least one
line, so with the number of lines as fuel the first argument never runs out;
the fuel only makes the recursion structural. -/
def evtGo : Nat → List String → List (String × String)
  | 0, _ => []
  | _, [] => []
  | fuel + 1, l :: rest =>
    match vScan l.data with
    | some m =>
      if rest.isEmpty then []
      else
        (m, String.join ((rest.takeWhile isBlockLine).map fun s => s ++ "\n")) ::
          evtGo fuel (rest.dropWhile isBlockLine)
    | none => evtGo fuel rest

/-- `extract_validation_tasks`: all `(module, step block)` pairs, in document
order. -/
def extract_validation_tasks (md : String) : List (String × String) :=
  evtGo (linesOf md).length (linesOf md)

/-- One line of `extract_steps`'s anchored pattern `\s+- \[ \] (.+)`. -/
def stepOfLine (l : String) : Option String :=
  if (l.data.takeWhile isWsChar).isEmpty then none
  else
    let rest := l.data.dropWhile isWsChar
    if "- [ ] ".data.isPrefixOf rest && decide (7 ≤ rest.length) then
      some (pyStrip ⟨rest.drop 6⟩)
    else none

/-- `extract_steps`: the stripped captures of the matching lines of a block. -/
def extract_steps (block : String) : List String :=
  (pySplitLines block).filterMap stepOfLine

/-- The scan of `re.search(r'Task (\d+):', title)` inside
`build_validation_prompt`. -/
def taskIdScan : List Char → Option String
  | [] => none
  | c :: t =>
    if "Task ".data.isPrefixOf (c :: t) then
      let r := (c :: t).drop 5
      let ds := r.takeWhile Char.isDigit
      if ds.isEmpty then taskIdScan t
      else
        match r.drop ds.length with
        | ':' :: _ => some ⟨ds⟩
        | _ => taskIdScan t
    else taskIdScan t

/-- The task id derived from the title, with the sentinel `"unknown"`. -/
def taskIdOf (title : String) : String := (taskIdScan title.data).getD "unknown"

/-- The numbered lines `f"{i}. {item}\n"` of the REQUIREMENTS and
VALIDATION STEPS sections, in input order. -/
def enumLines : Nat → List String → String
  | _, [] => ""
  | i, x :: xs => toString i ++ ". " ++ x ++ "\n" ++ enumLines (i + 1) xs

/-- The fixed INSTRUCTIONS / COMPLETION SUMMARY tail of the prompt. -/
def instructionsBlock (module : String) : String :=
  "\nINSTRUCTIONS:\n1. Execute each validation step in sequence\n2. For each step:\n   - Show the actual code executed with full paths\n   - Show the actual output\n   - Verify the output matches expectations\n   - Include both JSON and rich table outputs where appropriate\n3. After completing all steps:\n   - Update the task list by editing /home/graham/workspace/experiments/arangodb/docs/tasks/011_db_operations_validation.md\n   - Change \"- [ ] Validate `"
  ++ module ++ "`\" to \"- [x] Validate `" ++ module
  ++ "`\"\n   - Document any issues found and fixes applied\n   - Confirm all requirements were met\n   - Confirm actual database connection was used (no mocks)\n\nAfter completion, provide summary in this format:\n\nCOMPLETION SUMMARY:\n- What was validated: \n- Results:\n- Files modified:\n- Issues encountered:\n- Fixes applied:\n- Requirements met: [Yes/No with details]\n- Used real database: [Confirmed/Not confirmed]\n\nBegin validation of "
  ++ module ++ " now.\n"

/-- The prompt before the final `strip`, as the source assembles it with
`+=` (consecutive fixed pieces kept as separate segments). -/
def bvpRaw (title objective module : String) (steps requirements : List String) :
    String :=
  "cd /home/graham/workspace/experiments/arangodb/ && source .venv/bin/activate\n\n"
  ++ "TASK TYPE: Validation\n"
  ++ ("TASK ID: db-validation-" ++ taskIdOf title ++ "\n")
  ++ ("CURRENT SUBTASK: Validate " ++ module ++ "\n\n")
  ++ "CONTEXT:\n"
  ++ ("- " ++ objective ++ "\n")
  ++ "- Validation must use real ArangoDB connections, not mocks\n"
  ++ "- Results must be verified with both JSON and rich table outputs\n"
  ++ ("- File is located at /home/graham/workspace/experiments/arangodb/" ++ module ++ "\n\n")
  ++ "REQUIREMENTS:\n"
  ++ enumLines 1 requirements
  ++ ("\nVALIDATION STEPS for " ++ module ++ ":\n")
  ++ enumLines 1 steps
  ++ instructionsBlock module

/-- `build_validation_prompt`: the assembled prompt, stripped. -/
def build_validation_prompt (title objective module : String)
    (steps requirements : List String) : String :=
  pyStrip (bvpRaw title objective module steps requirements)

/-- One task record of the Claude Code MCP output format. -/
structure McpTask where
  tool : String
  command : String
  dangerously_skip_permissions : Bool
  timeout_ms : Nat
deriving DecidableEq, Repr

/-- `format_tasks_for_mcp`: wrap each prompt into a task record. -/
def format_tasks_for_mcp (validation_prompts : List String) : List McpTask :=
  validation_prompts.map fun prompt =>
    { tool := "claude_code"
      command := prompt
      dangerously_skip_permissions := true
      timeout_ms := 300000 }

/-- The title error message of `process_markdown`. -/
def titleErrMsg : String := "Missing required title. Format: '# Task NNN: Title'"

/-- The objective error message of `process_markdown` (the source writes a
literal backslash-n inside the quotes). -/
def objectiveErrMsg : String :=
  "Missing required 'Objective' section. Format: '## Objective\\nDescription'"

/-- The requirements error message of `process_markdown`. -/
def requirementsErrMsg : String :=
  "Missing or empty 'Requirements' section. Format: '## Requirements\\n1. [ ] Requirement'"

/-- The no-tasks error message of `process_markdown`. -/
def tasksErrMsg : String :=
  "No validation tasks found. Format: '- [ ] Validate `module.py`' with indented steps"

/-- The modules of the validation tasks without extracted steps, in document
order (the `empty_tasks` loop of `process_markdown`). -/
def emptyTasksOf (md : String) : List String :=
  ((extract_validation_tasks md).filter fun p => (extract_steps p.2).isEmpty).map
    fun p => p.1

/-- The empty-steps error message of `process_markdown`. -/
def stepsErrMsg (empty_tasks : List String) : String :=
  "Tasks without steps: " ++ pyJoin ", " empty_tasks ++ ". Each task needs indented steps"

/-- The `validation_errors` list that `process_markdown` accumulates, in
source order. -/
def processMarkdownErrors (md : String) : List String :=
  (if extract_title md = "Untitled Task" then [titleErrMsg] else [])
  ++ (if extract_objective md = "" then [objectiveErrMsg] else [])
  ++ (if extract_requirements md = [] then [requirementsErrMsg] else [])
  ++ (if extract_validation_tasks md = [] then [tasksErrMsg] else [])
  ++ (if emptyTasksOf md = [] then [] else [stepsErrMsg (emptyTasksOf md)])

/-- The fixed expected-format example appended to the composite error. -/
def expectedFormatBlock : String :=
  "\n\nRequired markdown format:\n# Task NNN: Title\n## Objective\nClear description\n## Requirements\n1. [ ] First requirement\n## Task Section\n- [ ] Validate `file.py`\n   - [ ] Step 1\n   - [ ] Step 2\n"

/-- The composite `ValueError` message of `process_markdown`. -/
def validationErrorMessage (errs : List String) : String :=
  "Markdown format validation failed:\n"
  ++ pyJoin "\n" (errs.map fun e => "  - " ++ e)
  ++ expectedFormatBlock

/-- `process_markdown` (the file already loaded, the progress callback
dropped): validate, then compile each validation task that has steps. -/
def process_markdown (md : String) : Except String (List McpTask) :=
  match processMarkdownErrors md with
  | [] =>
    .ok (format_tasks_for_mcp ((extract_validation_tasks md).filterMap fun p =>
      if (extract_steps p.2).isEmpty then none
      else
        some (build_validation_prompt (extract_title md) (extract_objective md)
          p.1 (extract_steps p.2) (extract_requirements md))))
  | errs => .error (validationErrorMessage errs)

/-- One line of the validator's pattern `^#\s+Task\s+\d+:` (re.MULTILINE). -/
def vTitleLine (l : String) : Bool :=
  match l.data with
  | '#' :: r =>
    !(r.takeWhile isWsChar).isEmpty &&
      (let r1 := r.dropWhile isWsChar
       "Task".data.isPrefixOf r1 &&
         (let r2 := r1.drop 4
          !(r2.takeWhile isWsChar).isEmpty &&
            (let r3 := r2.dropWhile isWsChar
             !(r3.takeWhile Char.isDigit).isEmpty &&
               (match r3.dropWhile Char.isDigit with
                | ':' :: _ => true
                | _ => false))))
  | _ => false

/-- One line of `^##\s+Objective` with `re.IGNORECASE`. -/
def vObjectiveLine (l : String) : Bool :=
  match l.data with
  | '#' :: '#' :: r =>
    !(r.takeWhile isWsChar).isEmpty &&
      "objective".data.isPrefixOf ((r.dropWhile isWsChar).map Char.toLower)
  | _ => false

/-- One line of `^##\s+Requirements` with `re.IGNORECASE`. -/
def vRequirementsLine (l : String) : Bool :=
  match l.data with
  | '#' :: '#' :: r =>
    !(r.takeWhile isWsChar).isEmpty &&
      "requirements".data.isPrefixOf ((r.dropWhile isWsChar).map Char.toLower)
  | _ => false

/-- One line of the validator's task pattern
``^\s*-\s*\[\s*\]\s*Validate\s*`[^`]+` ``. -/
def vValidateLine (l : String) : Bool :=
  match l.data.dropWhile isWsChar with
  | '-' :: r1 =>
    (match r1.dropWhile isWsChar with
     | '[' :: r3 =>
       (match r3.dropWhile isWsChar with
        | ']' :: r5 =>
          (let r6 := r5.dropWhile isWsChar
           "Validate".data.isPrefixOf r6 &&
             (match (r6.drop 8).dropWhile isWsChar with
              | c :: r8 =>
                c = btChar &&
                  (let run := r8.takeWhile fun d => d ≠ btChar
                   !run.isEmpty &&
                     (match r8.drop run.length with
                      | d :: _ => d = btChar
                      | [] => false))
              | [] => false))
        | _ => false)
     | _ => false)
  | _ => false

/-- The checkbox search `\[\s*\]` inside the requirements section. -/
def hasCheckboxData : List Char → Bool
  | [] => false
  | c :: t =>
    (c = '[' &&
      (match t.dropWhile isWsChar with
       | ']' :: _ => true
       | _ => false)) || hasCheckboxData t

namespace MarkdownValidator

/-- `MarkdownValidator.validate_markdown_structure`: the five structural
checks, each contributing one error message, in source order; returns
`(is_valid, errors)` and (being a total function) never raises. -/
def validate_markdown_structure (md : String) : Bool × List String :=
  let ls := linesOf md
  let errs :=
    (if ls.any vTitleLine then [] else ["Missing task title. Format: '# Task NNN: Title'"])
    ++ (if ls.any vObjectiveLine then [] else ["Missing '## Objective' section"])
    ++ (if ls.any vRequirementsLine then [] else ["Missing '## Requirements' section"])
    ++ (if ls.any vValidateLine then []
        else ["No validation tasks found. Format: '- [ ] Validate `file.py`'"])
    ++ (if ls.any vRequirementsLine then
          match dropAfterFirstCI "## Requirements\n".data md.data with
          | some rest =>
            if hasCheckboxData (lazyGo "\n##".data [] rest) then []
            else ["Requirements should use checkboxes. Format: '1. [ ] Requirement'"]
          | none => []
        else [])
  (errs.isEmpty, errs)

end MarkdownValidator

/-- A Python value, as far as `validate_mcp_format` can observe one. -/
inductive PyValue where
  | pyStr (s : String)
  | pyBool (b : Bool)
  | pyInt (n : Int)
  | pyDict (entries : List (String × PyValue))
  | pyList (elems : List PyValue)

/-- Whether a Python value is a `dict` (`isinstance(v, dict)`). -/
def PyValue.isDict : PyValue → Bool
  | .pyDict _ => true
  | _ => false

/-- Python's membership test `key in v`: key lookup for a `dict`, substring
test for a `str`, element equality for a `list`, and a `TypeError` for a
non-iterable value such as an `int` or `bool`. -/
def pyIn (key : String) : PyValue → Except String Bool
  | .pyDict es => .ok (es.any fun kv => kv.1 == key)
  | .pyStr s => .ok (containsData key.data s.data)
  | .pyList es =>
    .ok (es.any fun v =>
      match v with
      | .pyStr s => s == key
      | _ => false)
  | .pyBool _ => .error "TypeError: argument of type 'bool' is not iterable"
  | .pyInt _ => .error "TypeError: argument of type 'int' is not iterable"

/-- Python's subscript `v[key]` with a string key. -/
def pyGet (v : PyValue) (key : String) : Except String PyValue :=
  match v with
  | .pyDict es =>
    match es.find? fun kv => kv.1 == key with
    | some kv => .ok kv.2
    | none => .error "KeyError"
  | .pyStr _ => .error "TypeError: string indices must be integers"
  | .pyList _ => .error "TypeError: list indices must be integers or slices, not str"
  | .pyBool _ => .error "TypeError: 'bool' object is not subscriptable"
  | .pyInt _ => .error "TypeError: 'int' object is not subscriptable"

/-- Python `v == s` for a string literal `s`. -/
def pyEqStr : PyValue → String → Bool
  | .pyStr s, t => s == t
  | _, _ => false

/-- Python `v is True`. -/
def pyEqTrue : PyValue → Bool
  | .pyBool b => b
  | _ => false

namespace TaskConverter

/-- The per-task checks of `TaskConverter.validate_mcp_format`, in source
order; `Except.error` models a raised exception, `.ok false` a hard error
(the warning-only membership tests are still evaluated, since they can
raise). -/
def vmfCheckTask (task : PyValue) : Except String Bool := do
  let hasTool ← pyIn "tool" task
  if hasTool = false then return false
  let toolV ← pyGet task "tool"
  if pyEqStr toolV "claude_code" = false then return false
  let hasArgs ← pyIn "arguments" task
  if hasArgs = false then return false
  let args ← pyGet task "arguments"
  if args.isDict = false then return false
  let hasCmd ← pyIn "command" args
  if hasCmd = false then return false
  let cmd ← pyGet args "command"
  let _ ← pyIn "cd /home/graham/workspace/experiments/arangodb/" cmd
  let _ ← pyIn "source .venv/bin/activate" cmd
  let _ ← pyIn "TASK TYPE:" cmd
  let _ ← pyIn "TASK ID:" cmd
  let _ ← pyIn "CURRENT SUBTASK:" cmd
  let amb ← pyIn "/path/to/" cmd
  if amb then return false
  let hasDsp ← pyIn "dangerously_skip_permissions" args
  if hasDsp = false then return false
  let dsp ← pyGet args "dangerously_skip_permissions"
  if pyEqTrue dsp = false then return false
  let _ ← pyIn "timeout_ms" args
  return true

/-- The task loop of `validate_mcp_format`: stop with `False` at the first
hard error. -/
def vmfLoop : List PyValue → Except String Bool
  | [] => .ok true
  | t :: ts => do
    let ok ← vmfCheckTask t
    if ok then vmfLoop ts else return false

/-- `TaskConverter.validate_mcp_format` (the argument is a list by type, so
the not-a-list branch is unrepresentable; an empty list is valid). -/
def validate_mcp_format (tasks_data : List PyValue) : Except String Bool :=
  if tasks_data.isEmpty then .ok true else vmfLoop tasks_data

end TaskConverter

/-- The Python dict built by `format_tasks_for_mcp` for one task record. -/
def mcpToPy (t : McpTask) : PyValue :=
  .pyDict
    [("tool", .pyStr t.tool),
     ("arguments",
       .pyDict
         [("command", .pyStr t.command),
          ("dangerously_skip_permissions", .pyBool t.dangerously_skip_permissions),
          ("timeout_ms", .pyInt t.timeout_ms)])]

/-- `convert_tasks`, with file I/O abstracted (the input file exists and holds
`md`; the output directory is writable): the Bool is the return value, and
the second component is the task list written to the output file (`none` when
nothing is written).  Exceptions raised inside are caught and yield `False`. -/
def convert_tasks (md : String) : Bool × Option (List McpTask) :=
  match process_markdown md with
  | .error _ => (false, none)
  | .ok tasks =>
    match TaskConverter.validate_mcp_format (tasks.map mcpToPy) with
    | .error _ => (false, none)
    | .ok false => (false, none)
    | .ok true => (true, some tasks)

/-- Whether a pipeline run succeeded (no exception raised). -/
def exceptIsOk : Except String (List McpTask) → Bool
  | .ok _ => true
  | .error _ => false

/-- The task list of a successful run (`[]` after an exception). -/
def tasksOf (md : String) : List McpTask :=
  match process_markdown md with
  | .ok ts => ts
  | .error _ => []

/-- A fully valid one-task document. -/
def docTaskValid : String :=
  "# Task 11: T\n## Objective\nO\n## Requirements\n1. [ ] R\n## Tasks\n- [ ] Validate `m.py`\n   - [ ] S\n"

/-- `docTaskValid` with a first heading that does not match `# Task <number>:`. -/
def docMyTask : String :=
  "# My Task\n## Objective\nO\n## Requirements\n1. [ ] R\n## Tasks\n- [ ] Validate `m.py`\n   - [ ] S\n"

/-- `docTaskValid` plus a second validation-task entry without any step line. -/
def docEmptySteps : String :=
  "# Task 11: T\n## Objective\nO\n## Requirements\n1. [ ] R\n## Tasks\n- [ ] Validate `m.py`\n   - [ ] S\n- [ ] Validate `empty.py`\n"

/-- `docTaskValid` with the objective heading upper-cased. -/
def docUpperObjective : String :=
  "# Task 11: T\n## OBJECTIVE\nO\n## Requirements\n1. [ ] R\n## Tasks\n- [ ] Validate `m.py`\n   - [ ] S\n"

/-- `docTaskValid` with the requirements heading upper-cased. -/
def docUpperRequirements : String :=
  "# Task 11: T\n## Objective\nO\n## REQUIREMENTS\n1. [ ] R\n## Tasks\n- [ ] Validate `m.py`\n   - [ ] S\n"

/-- A document whose first top-level heading is literally `# Untitled Task`
(so the heading exists but collides with `extract_title`'s sentinel), with
everything else valid. -/
def docUntitled : String :=
  "# Untitled Task\n## Objective\nO\n## Requirements\n1. [ ] R\n## Tasks\n- [ ] Validate `m.py`\n   - [ ] S\n"

/-- A document with two structural violations: no objective section and no
requirements section. -/
def docTwoViolations : String :=
  "# Task 11: T\n## Tasks\n- [ ] Validate `m.py`\n   - [ ] S\n"

/-- `docTaskValid` with an objective that mentions a placeholder path. -/
def docPathTo : String :=
  "# Task 11: T\n## Objective\nSee /path/to/db\n## Requirements\n1. [ ] R\n## Tasks\n- [ ] Validate `m.py`\n   - [ ] S\n"

/-! ### Helper lemmas -/

theorem str_data_append (a b : String) : (a ++ b).data = a.data ++ b.data := rfl

theorem infix_appendR {t a : List Char} (b : List Char) (h : t <:+: a) :
    t <:+: a ++ b :=
  h.trans (List.prefix_append a b).isInfix

theorem infix_appendL {t b : List Char} (a : List Char) (h : t <:+: b) :
    t <:+: a ++ b :=
  h.trans (List.suffix_append a b).isInfix

theorem infix_dropWhileWs {t l : List Char} (hne : t ≠ [])
    (hh : isWsChar (t.headD 'a') = false) (h : t <:+: l) :
    t <:+: l.dropWhile isWsChar := by
  obtain ⟨a, b, rfl⟩ := h
  induction a with
  | nil =>
    cases t with
    | nil => exact absurd rfl hne
    | cons c t' =>
      have hc : isWsChar c = false := hh
      rw [List.nil_append, List.cons_append, List.dropWhile_cons, hc]
      simp only [Bool.false_eq_true, if_false]
      exact infix_appendR b (List.infix_refl _)
  | cons x a ih =>
    rw [List.cons_append, List.cons_append, List.dropWhile_cons]
    by_cases hx : isWsChar x = true
    · simpa [hx] using ih
    · simp only [hx, if_false]
      exact infix_appendL [x] (List.infix_append a t b)

theorem infix_pyStripData {t l : List Char} (hne : t ≠ [])
    (hh : isWsChar (t.headD 'a') = false)
    (hl : isWsChar (t.reverse.headD 'a') = false)
    (h : t <:+: l) : t <:+: pyStripData l := by
  have h1 : t <:+: l.dropWhile isWsChar := infix_dropWhileWs hne hh h
  have h2 : t.reverse <:+: (l.dropWhile isWsChar).reverse := List.reverse_infix.mpr h1
  have hne2 : t.reverse ≠ [] := by simpa using hne
  have h3 : t.reverse <:+: ((l.dropWhile isWsChar).reverse).dropWhile isWsChar :=
    infix_dropWhileWs hne2 hl h2
  have h4 := List.reverse_infix.mpr h3
  simpa [pyStripData] using h4

theorem sinfix_pyStrip {t s : String} (hne : t.data ≠ [])
    (hh : isWsChar (t.data.headD 'a') = false)
    (hl : isWsChar (t.data.reverse.headD 'a') = false)
    (h : t.data <:+: s.data) : t.data <:+: (pyStrip s).data :=
  infix_pyStripData hne hh hl h

theorem infix_pyJoin {x sep : String} {l : List String} (hx : x ∈ l) :
    x.data <:+: (pyJoin sep l).data := by
  induction l with
  | nil => cases hx
  | cons y ys ih =>
    cases ys with
    | nil =>
      rw [List.mem_singleton] at hx
      subst hx
      exact List.infix_refl _
    | cons z zs =>
      rcases List.mem_cons.mp hx with h1 | h2
      · subst h1
        show x.data <:+: ((x ++ sep) ++ pyJoin sep (z :: zs)).data
        rw [str_data_append, str_data_append]
        exact infix_appendR _ (infix_appendR _ (List.infix_refl _))
      · have hi := ih h2
        show x.data <:+: ((y ++ sep) ++ pyJoin sep (z :: zs)).data
        rw [str_data_append]
        exact infix_appendL _ hi

theorem filterMap_if_eq_map {α β : Type} (q : α → Bool) (g : α → β) (l : List α)
    (h : ∀ a ∈ l, q a = false) :
    (l.filterMap fun a => if q a then none else some (g a)) = l.map g := by
  induction l with
  | nil => rfl
  | cons x xs ih =>
    rw [List.filterMap_cons, List.map_cons]
    simp only [h x (List.mem_cons_self x xs), Bool.false_eq_true, if_false]
    rw [ih fun a ha => h a (List.mem_cons_of_mem _ ha)]

/-- The compiled prompt of one validation-task pair, as `process_markdown`
produces it. -/
def promptOf (md : String) (p : String × String) : String :=
  build_validation_prompt (extract_title md) (extract_objective md) p.1
    (extract_steps p.2) (extract_requirements md)

theorem process_markdown_ok_iff {md : String} {ts : List McpTask} :
    process_markdown md = .ok ts ↔
      processMarkdownErrors md = [] ∧
        ts = format_tasks_for_mcp ((extract_validation_tasks md).filterMap fun p =>
          if (extract_steps p.2).isEmpty then none else some (promptOf md p)) := by
  unfold process_markdown promptOf
  cases hE : processMarkdownErrors md with
  | nil =>
    constructor
    · intro h
      exact ⟨rfl, (Except.ok.inj h).symm⟩
    · rintro ⟨-, rfl⟩
      rfl
  | cons e es =>
    constructor
    · intro h
      exact Except.noConfusion h
    · rintro ⟨h, -⟩
      exact absurd h (List.cons_ne_nil e es)

theorem steps_nonempty_of_no_errors {md : String}
    (h : processMarkdownErrors md = []) :
    ∀ p ∈ extract_validation_tasks md, (extract_steps p.2).isEmpty = false := by
  have h5 : emptyTasksOf md = [] := by
    by_cases hc : emptyTasksOf md = []
    · exact hc
    · exfalso
      simp only [processMarkdownErrors, hc, if_false, List.append_eq_nil] at h
      exact (List.cons_ne_nil _ _) h.2
  intro p hp
  by_contra hb
  have hb' : (extract_steps p.2).isEmpty = true := by
    cases hq : (extract_steps p.2).isEmpty
    · exact absurd hq hb
    · rfl
  have hp' : p ∈ (extract_validation_tasks md).filter
      fun p => (extract_steps p.2).isEmpty :=
    List.mem_filter.mpr ⟨hp, hb'⟩
  have hm : p.1 ∈ emptyTasksOf md := List.mem_map_of_mem _ hp'
  rw [h5] at hm
  exact absurd hm (List.not_mem_nil _)

theorem process_markdown_ok_explicit {md : String} {ts : List McpTask}
    (h : process_markdown md = .ok ts) :
    processMarkdownErrors md = [] ∧
      ts = format_tasks_for_mcp ((extract_validation_tasks md).map (promptOf md)) := by
  obtain ⟨hE, hts⟩ := process_markdown_ok_iff.mp h
  refine ⟨hE, ?_⟩
  rw [hts, filterMap_if_eq_map _ _ _ (steps_nonempty_of_no_errors hE)]

/-! ### Claims -/

/-- C1: for every markdown document that passes input validation (and hence
has validation-task blocks each with at least one extracted step),
`process_markdown` returns a list with exactly one task record per
validation-task block. -/
theorem c1_process_markdown_completeness (md : String)
    (h : processMarkdownErrors md = []) :
    ∃ ts, process_markdown md = .ok ts ∧
      ts.length = (extract_validation_tasks md).length := by
  refine ⟨_, process_markdown_ok_iff.mpr ⟨h, rfl⟩, ?_⟩
  rw [format_tasks_for_mcp, List.length_map,
    filterMap_if_eq_map _ _ _ (steps_nonempty_of_no_errors h), List.length_map]

/-- Witness for C1 at `docTaskValid` (one validation-task block, one record). -/
theorem c1_witness :
    processMarkdownErrors docTaskValid = [] ∧
      (∃ ts, process_markdown docTaskValid = .ok ts ∧
        ts.length = (extract_validation_tasks docTaskValid).length) :=
  ⟨rfl, c1_process_markdown_completeness docTaskValid rfl⟩

/-- C5: a document with several structural violations is rejected with a
single composite error whose message carries every violation (each as a
`"  - "`-prefixed line) together with the expected-format example, and no
task records are produced. -/
theorem c5_aggregated_error (md : String)
    (h : 2 ≤ (processMarkdownErrors md).length) :
    process_markdown md =
        .error (validationErrorMessage (processMarkdownErrors md)) ∧
      (∀ v ∈ processMarkdownErrors md,
        ("  - " ++ v).data <:+:
          (validationErrorMessage (processMarkdownErrors md)).data) ∧
      expectedFormatBlock.data <:+:
        (validationErrorMessage (processMarkdownErrors md)).data := by
  refine ⟨?_, ?_, ?_⟩
  · cases hE : processMarkdownErrors md with
    | nil => rw [hE] at h; exact absurd h (by decide)
    | cons e es =>
      unfold process_markdown
      rw [hE]
  · intro v hv
    show ("  - " ++ v).data <:+:
      (("Markdown format validation failed:\n"
        ++ pyJoin "\n" ((processMarkdownErrors md).map fun e => "  - " ++ e))
        ++ expectedFormatBlock).data
    rw [str_data_append, str_data_append]
    exact infix_appendR _ (infix_appendL _
      (infix_pyJoin (List.mem_map_of_mem _ hv)))
  · show expectedFormatBlock.data <:+:
      (("Markdown format validation failed:\n"
        ++ pyJoin "\n" ((processMarkdownErrors md).map fun e => "  - " ++ e))
        ++ expectedFormatBlock).data
    rw [str_data_append]
    exact infix_appendL _ (List.infix_refl _)

/-- Witness for C5 at `docTwoViolations` (missing objective and missing
requirements at once). -/
theorem c5_witness :
    2 ≤ (processMarkdownErrors docTwoViolations).length ∧
      process_markdown docTwoViolations =
        .error (validationErrorMessage (processMarkdownErrors docTwoViolations)) :=
  ⟨by decide, (c5_aggregated_error docTwoViolations (by decide)).1⟩

/-- A `stepsErrMsg` never equals `titleErrMsg` (their first characters
differ). -/
theorem titleErrMsg_ne_stepsErrMsg (x : List String) :
    titleErrMsg ≠ stepsErrMsg x := by
  intro h
  have h1 : titleErrMsg.data.headD ' ' = 'M' := rfl
  have h2 : (stepsErrMsg x).data.headD ' ' = 'T' := rfl
  have : ('M' : Char) = 'T' := by rw [← h1, h, h2]
  exact absurd this (by decide)

/-- C2 counterexample: `docMyTask`'s first (and only) top-level heading is
`# My Task`, which does not match `# Task <number>: <text>`, yet
`process_markdown` does not raise — it compiles the document. -/
theorem c2_counterexample :
    extract_title docMyTask = "My Task" ∧
      taskIdScan (extract_title docMyTask).data = none ∧
      exceptIsOk (process_markdown docMyTask) = true :=
  ⟨rfl, rfl, rfl⟩

/-- C2 amended: `process_markdown`'s title validation only requires a
top-level heading to exist; the title error is raised exactly when
`extract_title` falls back to the sentinel, not when the heading fails to
match `# Task <number>: <text>`. -/
theorem c2_amended_title_check (md : String) :
    titleErrMsg ∈ processMarkdownErrors md ↔
      extract_title md = "Untitled Task" := by
  by_cases hc : extract_title md = "Untitled Task"
  · simp only [processMarkdownErrors, hc, if_true, iff_true]
    exact List.mem_append_left _ (List.mem_append_left _ (List.mem_append_left _
      (List.mem_append_left _ (List.mem_singleton_self _))))
  · simp only [processMarkdownErrors, hc, if_false, List.nil_append, hc,
      iff_false, List.mem_append]
    intro hmem
    rcases hmem with ((h2 | h3) | h4) | h5
    · revert h2
      split <;> intro h <;>
        first
        | exact absurd h (List.not_mem_nil _)
        | exact absurd (List.mem_singleton.mp h) (by decide)
    · revert h3
      split <;> intro h <;>
        first
        | exact absurd h (List.not_mem_nil _)
        | exact absurd (List.mem_singleton.mp h) (by decide)
    · revert h4
      split <;> intro h <;>
        first
        | exact absurd h (List.not_mem_nil _)
        | exact absurd (List.mem_singleton.mp h) (by decide)
    · revert h5
      split <;> intro h <;>
        first
        | exact absurd h (List.not_mem_nil _)
        | exact absurd (List.mem_singleton.mp h) (titleErrMsg_ne_stepsErrMsg _)

/-- C3 counterexample: `docEmptySteps` contains a validation-task entry
(`empty.py`) with no extracted steps, yet
`MarkdownValidator.validate_markdown_structure` reports the document valid
with no error at all — the empty-steps check is not part of the Structural
Validator. -/
theorem c3_counterexample :
    extract_validation_tasks docEmptySteps =
        [("m.py", "   - [ ] S\n"), ("empty.py", "")] ∧
      extract_steps "" = [] ∧
      MarkdownValidator.validate_markdown_structure docEmptySteps = (true, []) :=
  ⟨rfl, rfl, rfl⟩

/-- C3 amended: `validate_markdown_structure` never raises (it is a total
function) and returns `(is_valid, errors)` with `is_valid` true exactly when
`errors` is empty, but it does not inspect steps; the empty-steps check, with
an error message naming every stepless module, is performed by
`process_markdown` instead. -/
theorem c3_amended_empty_steps (md : String) :
    ((MarkdownValidator.validate_markdown_structure md).1 =
        (MarkdownValidator.validate_markdown_structure md).2.isEmpty) ∧
      ∀ m ∈ emptyTasksOf md,
        m.data <:+: (stepsErrMsg (emptyTasksOf md)).data ∧
          stepsErrMsg (emptyTasksOf md) ∈ processMarkdownErrors md := by
  refine ⟨rfl, fun m hm => ⟨?_, ?_⟩⟩
  · show m.data <:+:
      (("Tasks without steps: " ++ pyJoin ", " (emptyTasksOf md))
        ++ ". Each task needs indented steps").data
    rw [str_data_append, str_data_append]
    exact infix_appendR _ (infix_appendL _ (infix_pyJoin hm))
  · have hne : emptyTasksOf md ≠ [] := by
      intro h0
      rw [h0] at hm
      exact absurd hm (List.not_mem_nil _)
    show stepsErrMsg (emptyTasksOf md) ∈ _ ++ _ ++ _ ++ _ ++ _
    refine List.mem_append_right _ ?_
    rw [if_neg hne]
    exact List.mem_singleton_self _

/-- Witness for C3's amended claim at `docEmptySteps` and module
`empty.py`. -/
theorem c3_witness :
    ((MarkdownValidator.validate_markdown_structure docEmptySteps).1 =
        (MarkdownValidator.validate_markdown_structure docEmptySteps).2.isEmpty) ∧
      ("empty.py" : String).data <:+:
        (stepsErrMsg (emptyTasksOf docEmptySteps)).data ∧
      stepsErrMsg (emptyTasksOf docEmptySteps) ∈
        processMarkdownErrors docEmptySteps :=
  ⟨(c3_amended_empty_steps docEmptySteps).1,
    (c3_amended_empty_steps docEmptySteps).2 "empty.py" (by decide)⟩

/-- C4 counterexample: `docUpperObjective` differs from `docTaskValid` only in
the letter-case of the `## Objective` heading line; the Structural Validator
treats the two identically, but `extract_objective` is case-sensitive, so
section extraction differs and `process_markdown` accepts one document while
rejecting the other. -/
theorem c4_counterexample :
    MarkdownValidator.validate_markdown_structure docUpperObjective =
        MarkdownValidator.validate_markdown_structure docTaskValid ∧
      extract_objective docTaskValid = "O" ∧
      extract_objective docUpperObjective = "" ∧
      exceptIsOk (process_markdown docTaskValid) = true ∧
      exceptIsOk (process_markdown docUpperObjective) = false :=
  ⟨rfl, rfl, rfl, rfl, rfl⟩

/-- C4 amended: only `MarkdownValidator.validate_markdown_structure`
recognizes the `## Objective` and `## Requirements` headings
case-insensitively; `extract_objective` and `extract_requirements` (and
therefore `process_markdown`) match them case-sensitively, so a case-variant
document passes the validator unchanged but fails extraction and is rejected
by the pipeline. -/
theorem c4_amended_case_sensitivity :
    MarkdownValidator.validate_markdown_structure docUpperRequirements =
        MarkdownValidator.validate_markdown_structure docTaskValid ∧
      extract_requirements docTaskValid = ["R"] ∧
      extract_requirements docUpperRequirements = [] ∧
      exceptIsOk (process_markdown docUpperRequirements) = false :=
  ⟨rfl, rfl, rfl, rfl⟩

/-- C8: `validate_mcp_format` on a list whose element is not record-shaped —
here the integer `5` — raises a `TypeError` from the membership test
`'tool' not in task` instead of returning `False`, contradicting its
documented boolean contract. -/
theorem c8_validate_mcp_format_raises :
    TaskConverter.validate_mcp_format [PyValue.pyInt 5] =
      .error "TypeError: argument of type 'int' is not iterable" :=
  rfl

set_option maxRecDepth 100000 in
/-- C10: `docPathTo` passes input validation, its objective (and hence the
rendered command) contains the placeholder path `/path/to/`, output
validation rejects the assembled records, and `convert_tasks` writes no
output file. -/
theorem c10_path_placeholder_rejection :
    processMarkdownErrors docPathTo = [] ∧
      containsData "/path/to/".data (extract_objective docPathTo).data = true ∧
      (tasksOf docPathTo).all
        (fun t => containsData "/path/to/".data t.command.data) = true ∧
      TaskConverter.validate_mcp_format ((tasksOf docPathTo).map mcpToPy) =
        .ok false ∧
      convert_tasks docPathTo = (false, none) :=
  ⟨rfl, rfl, rfl, rfl, rfl⟩

/-! ### The compiled prompt and its protocol markers -/

theorem mem_process_ok {md : String} {ts : List McpTask} {t : McpTask}
    (h : process_markdown md = .ok ts) (ht : t ∈ ts) :
    ∃ p ∈ extract_validation_tasks md,
      t = { tool := "claude_code", command := promptOf md p,
            dangerously_skip_permissions := true, timeout_ms := 300000 } := by
  obtain ⟨hE, rfl⟩ := process_markdown_ok_explicit h
  rw [format_tasks_for_mcp, List.map_map] at ht
  obtain ⟨p, hp, hw⟩ := List.mem_map.mp ht
  exact ⟨p, hp, hw.symm⟩

theorem bvpRaw_taskType (title objective module : String)
    (steps requirements : List String) :
    ("TASK TYPE:" : String).data <:+:
      (bvpRaw title objective module steps requirements).data := by
  unfold bvpRaw
  simp only [str_data_append]
  apply infix_appendR
  apply infix_appendR
  apply infix_appendR
  apply infix_appendR
  apply infix_appendR
  apply infix_appendR
  apply infix_appendR
  apply infix_appendR
  apply infix_appendR
  apply infix_appendR
  apply infix_appendR
  apply infix_appendR
  apply infix_appendL
  decide

theorem bvpRaw_taskId (title objective module : String)
    (steps requirements : List String) :
    ("TASK ID:" : String).data <:+:
      (bvpRaw title objective module steps requirements).data := by
  unfold bvpRaw
  simp only [str_data_append]
  apply infix_appendR
  apply infix_appendR
  apply infix_appendR
  apply infix_appendR
  apply infix_appendR
  apply infix_appendR
  apply infix_appendR
  apply infix_appendR
  apply infix_appendR
  apply infix_appendR
  apply infix_appendR
  apply infix_appendL
  apply infix_appendR
  apply infix_appendR
  decide

theorem bvpRaw_subtask (title objective module : String)
    (steps requirements : List String) :
    ("CURRENT SUBTASK:" : String).data <:+:
      (bvpRaw title objective module steps requirements).data := by
  unfold bvpRaw
  simp only [str_data_append]
  apply infix_appendR
  apply infix_appendR
  apply infix_appendR
  apply infix_appendR
  apply infix_appendR
  apply infix_appendR
  apply infix_appendR
  apply infix_appendR
  apply infix_appendR
  apply infix_appendR
  apply infix_appendL
  apply infix_appendR
  apply infix_appendR
  decide

theorem bvpRaw_unknown (title objective module : String)
    (steps requirements : List String)
    (hid : taskIdOf title = "unknown") :
    ("TASK ID: db-validation-unknown" : String).data <:+:
      (bvpRaw title objective module steps requirements).data := by
  unfold bvpRaw
  rw [hid]
  simp only [str_data_append]
  apply infix_appendR
  apply infix_appendR
  apply infix_appendR
  apply infix_appendR
  apply infix_appendR
  apply infix_appendR
  apply infix_appendR
  apply infix_appendR
  apply infix_appendR
  apply infix_appendR
  apply infix_appendR
  apply infix_appendL
  apply infix_appendR
  decide

theorem bvpRaw_req_block (title objective module : String)
    (steps requirements : List String) :
    ("REQUIREMENTS:\n" ++ enumLines 1 requirements ++ "\nVALIDATION STEPS for "
      ++ module ++ ":").data <:+:
      (bvpRaw title objective module steps requirements).data := by
  refine ⟨("cd /home/graham/workspace/experiments/arangodb/ && source .venv/bin/activate\n\n"
      ++ "TASK TYPE: Validation\n"
      ++ ("TASK ID: db-validation-" ++ taskIdOf title ++ "\n")
      ++ ("CURRENT SUBTASK: Validate " ++ module ++ "\n\n")
      ++ "CONTEXT:\n"
      ++ ("- " ++ objective ++ "\n")
      ++ "- Validation must use real ArangoDB connections, not mocks\n"
      ++ "- Results must be verified with both JSON and rich table outputs\n"
      ++ ("- File is located at /home/graham/workspace/experiments/arangodb/"
          ++ module ++ "\n\n")).data,
    ("\n" ++ enumLines 1 steps ++ instructionsBlock module).data, ?_⟩
  unfold bvpRaw
  rw [show (":\n" : String) = ":" ++ "\n" from rfl]
  simp only [str_data_append, List.append_assoc]

set_option maxRecDepth 4000 in
theorem bvpRaw_step_block (title objective module : String)
    (steps requirements : List String) :
    ("VALIDATION STEPS for " ++ module ++ ":\n" ++ enumLines 1 steps
      ++ "\nINSTRUCTIONS:").data <:+:
      (bvpRaw title objective module steps requirements).data := by
  refine ⟨("cd /home/graham/workspace/experiments/arangodb/ && source .venv/bin/activate\n\n"
      ++ "TASK TYPE: Validation\n"
      ++ ("TASK ID: db-validation-" ++ taskIdOf title ++ "\n")
      ++ ("CURRENT SUBTASK: Validate " ++ module ++ "\n\n")
      ++ "CONTEXT:\n"
      ++ ("- " ++ objective ++ "\n")
      ++ "- Validation must use real ArangoDB connections, not mocks\n"
      ++ "- Results must be verified with both JSON and rich table outputs\n"
      ++ ("- File is located at /home/graham/workspace/experiments/arangodb/"
          ++ module ++ "\n\n")
      ++ "REQUIREMENTS:\n"
      ++ enumLines 1 requirements
      ++ "\n").data,
    ("\n1. Execute each validation step in sequence\n2. For each step:\n   - Show the actual code executed with full paths\n   - Show the actual output\n   - Verify the output matches expectations\n   - Include both JSON and rich table outputs where appropriate\n3. After completing all steps:\n   - Update the task list by editing /home/graham/workspace/experiments/arangodb/docs/tasks/011_db_operations_validation.md\n   - Change \"- [ ] Validate `"
      ++ module ++ "`\" to \"- [x] Validate `" ++ module
      ++ "`\"\n   - Document any issues found and fixes applied\n   - Confirm all requirements were met\n   - Confirm actual database connection was used (no mocks)\n\nAfter completion, provide summary in this format:\n\nCOMPLETION SUMMARY:\n- What was validated: \n- Results:\n- Files modified:\n- Issues encountered:\n- Fixes applied:\n- Requirements met: [Yes/No with details]\n- Used real database: [Confirmed/Not confirmed]\n\nBegin validation of "
      ++ module ++ " now.\n").data, ?_⟩
  unfold bvpRaw instructionsBlock
  rw [show ("\nVALIDATION STEPS for " : String) = "\n" ++ "VALIDATION STEPS for " from rfl,
    show ("\nINSTRUCTIONS:\n1. Execute each validation step in sequence\n2. For each step:\n   - Show the actual code executed with full paths\n   - Show the actual output\n   - Verify the output matches expectations\n   - Include both JSON and rich table outputs where appropriate\n3. After completing all steps:\n   - Update the task list by editing /home/graham/workspace/experiments/arangodb/docs/tasks/011_db_operations_validation.md\n   - Change \"- [ ] Validate `" : String)
      = "\nINSTRUCTIONS:"
        ++ "\n1. Execute each validation step in sequence\n2. For each step:\n   - Show the actual code executed with full paths\n   - Show the actual output\n   - Verify the output matches expectations\n   - Include both JSON and rich table outputs where appropriate\n3. After completing all steps:\n   - Update the task list by editing /home/graham/workspace/experiments/arangodb/docs/tasks/011_db_operations_validation.md\n   - Change \"- [ ] Validate `"
      from rfl]
  simp only [str_data_append, List.append_assoc]

theorem bvp_taskType (title objective module : String)
    (steps requirements : List String) :
    ("TASK TYPE:" : String).data <:+:
      (build_validation_prompt title objective module steps requirements).data :=
  sinfix_pyStrip (by decide) (by decide) (by decide)
    (bvpRaw_taskType title objective module steps requirements)

theorem bvp_taskId (title objective module : String)
    (steps requirements : List String) :
    ("TASK ID:" : String).data <:+:
      (build_validation_prompt title objective module steps requirements).data :=
  sinfix_pyStrip (by decide) (by decide) (by decide)
    (bvpRaw_taskId title objective module steps requirements)

theorem bvp_subtask (title objective module : String)
    (steps requirements : List String) :
    ("CURRENT SUBTASK:" : String).data <:+:
      (build_validation_prompt title objective module steps requirements).data :=
  sinfix_pyStrip (by decide) (by decide) (by decide)
    (bvpRaw_subtask title objective module steps requirements)

theorem bvp_req_block (title objective module : String)
    (steps requirements : List String) :
    ("REQUIREMENTS:\n" ++ enumLines 1 requirements ++ "\nVALIDATION STEPS for "
      ++ module ++ ":").data <:+:
      (build_validation_prompt title objective module steps requirements).data := by
  refine sinfix_pyStrip ?_ ?_ ?_
    (bvpRaw_req_block title objective module steps requirements)
  · exact List.cons_ne_nil _ _
  · rfl
  · simp only [str_data_append, List.reverse_append]
    rfl

theorem bvp_step_block (title objective module : String)
    (steps requirements : List String) :
    ("VALIDATION STEPS for " ++ module ++ ":\n" ++ enumLines 1 steps
      ++ "\nINSTRUCTIONS:").data <:+:
      (build_validation_prompt title objective module steps requirements).data := by
  refine sinfix_pyStrip ?_ ?_ ?_
    (bvpRaw_step_block title objective module steps requirements)
  · exact List.cons_ne_nil _ _
  · rfl
  · simp only [str_data_append, List.reverse_append]
    rfl

/-- C6: every task record emitted by the pipeline for an accepted document
has a command containing the literal protocol markers `TASK TYPE:`,
`TASK ID:` and `CURRENT SUBTASK:` — the final whitespace trim never removes
them. -/
theorem c6_command_markers (md : String) (ts : List McpTask)
    (h : process_markdown md = .ok ts) :
    ∀ t ∈ ts,
      ("TASK TYPE:" : String).data <:+: t.command.data ∧
        ("TASK ID:" : String).data <:+: t.command.data ∧
        ("CURRENT SUBTASK:" : String).data <:+: t.command.data := by
  intro t ht
  obtain ⟨p, hp, rfl⟩ := mem_process_ok h ht
  exact ⟨bvp_taskType _ _ _ _ _, bvp_taskId _ _ _ _ _, bvp_subtask _ _ _ _ _⟩

/-- Witness for C6 at `docTaskValid`. -/
theorem c6_witness :
    ("TASK TYPE:" : String).data <:+:
        ((tasksOf docTaskValid).headD ⟨"", "", false, 0⟩).command.data ∧
      ("TASK ID:" : String).data <:+:
        ((tasksOf docTaskValid).headD ⟨"", "", false, 0⟩).command.data ∧
      ("CURRENT SUBTASK:" : String).data <:+:
        ((tasksOf docTaskValid).headD ⟨"", "", false, 0⟩).command.data :=
  c6_command_markers docTaskValid (tasksOf docTaskValid) rfl _
    (List.mem_singleton_self _)

/-- C7: order is preserved end to end — the record sequence follows the
source order of the validation-task blocks (the commands are exactly the
compiled prompts of `extract_validation_tasks`, in order), and inside every
compiled prompt the numbered REQUIREMENTS lines and the numbered
VALIDATION STEPS lines appear as the 1-indexed enumeration of the extracted
requirements and steps in their source order. -/
theorem c7_order_preservation (md : String) (ts : List McpTask)
    (h : process_markdown md = .ok ts) :
    (ts.map fun t => t.command) =
        (extract_validation_tasks md).map (promptOf md) ∧
      ∀ p ∈ extract_validation_tasks md,
        ("REQUIREMENTS:\n" ++ enumLines 1 (extract_requirements md)
          ++ "\nVALIDATION STEPS for " ++ p.1 ++ ":").data <:+:
            (promptOf md p).data ∧
          ("VALIDATION STEPS for " ++ p.1 ++ ":\n"
            ++ enumLines 1 (extract_steps p.2) ++ "\nINSTRUCTIONS:").data <:+:
            (promptOf md p).data := by
  obtain ⟨hE, rfl⟩ := process_markdown_ok_explicit h
  constructor
  · simp only [format_tasks_for_mcp, List.map_map]
    rfl
  · intro p hp
    exact ⟨bvp_req_block _ _ _ _ _, bvp_step_block _ _ _ _ _⟩

/-- Witness for C7 at `docTaskValid`. -/
theorem c7_witness :
    ((tasksOf docTaskValid).map fun t => t.command) =
        (extract_validation_tasks docTaskValid).map (promptOf docTaskValid) ∧
      ("REQUIREMENTS:\n" ++ enumLines 1 (extract_requirements docTaskValid)
        ++ "\nVALIDATION STEPS for " ++ "m.py" ++ ":").data <:+:
          (promptOf docTaskValid ("m.py", "   - [ ] S\n")).data ∧
      ("VALIDATION STEPS for " ++ "m.py" ++ ":\n"
        ++ enumLines 1 (extract_steps "   - [ ] S\n") ++ "\nINSTRUCTIONS:").data <:+:
          (promptOf docTaskValid ("m.py", "   - [ ] S\n")).data :=
  ⟨(c7_order_preservation docTaskValid (tasksOf docTaskValid) rfl).1,
    ((c7_order_preservation docTaskValid (tasksOf docTaskValid) rfl).2
      ("m.py", "   - [ ] S\n") (by decide)).1,
    ((c7_order_preservation docTaskValid (tasksOf docTaskValid) rfl).2
      ("m.py", "   - [ ] S\n") (by decide)).2⟩

/-- C9 counterexample: in `docUntitled` the first top-level heading exists
(its capture succeeds, with text `Untitled Task`) and contains no
`Task <number>:` token, and the objective, requirements and validation tasks
are all valid, yet `process_markdown` does not succeed: the extracted title
collides with the sentinel, so the title error fires and the pipeline
raises. -/
theorem c9_counterexample :
    titleCapture "# Untitled Task" = some "Untitled Task" ∧
      extract_title docUntitled = "Untitled Task" ∧
      taskIdScan (extract_title docUntitled).data = none ∧
      extract_objective docUntitled = "O" ∧
      extract_requirements docUntitled = ["R"] ∧
      extract_validation_tasks docUntitled = [("m.py", "   - [ ] S\n")] ∧
      emptyTasksOf docUntitled = [] ∧
      processMarkdownErrors docUntitled = [titleErrMsg] ∧
      exceptIsOk (process_markdown docUntitled) = false :=
  ⟨rfl, rfl, rfl, rfl, rfl, rfl, rfl, rfl, rfl⟩

/-- C9 amended: a document whose extracted title is not the sentinel
`Untitled Task` (which the title check cannot distinguish from a missing
heading) but contains no `Task <number>:` token, and which is otherwise
valid, is accepted, and every emitted command carries the sentinel task id
`db-validation-unknown`. -/
theorem c9_sentinel_task_id (md : String)
    (hTitle : extract_title md ≠ "Untitled Task")
    (hScan : taskIdScan (extract_title md).data = none)
    (hObj : extract_objective md ≠ "")
    (hReq : extract_requirements md ≠ [])
    (hVts : extract_validation_tasks md ≠ [])
    (hSteps : emptyTasksOf md = []) :
    ∃ ts, process_markdown md = .ok ts ∧
      ∀ t ∈ ts,
        ("TASK ID: db-validation-unknown" : String).data <:+: t.command.data := by
  have hE : processMarkdownErrors md = [] := by
    simp only [processMarkdownErrors, if_neg hTitle, if_neg hObj, if_neg hReq,
      if_neg hVts, if_pos hSteps, List.append_nil, List.nil_append]
  have hok : process_markdown md = .ok _ := process_markdown_ok_iff.mpr ⟨hE, rfl⟩
  refine ⟨_, hok, ?_⟩
  intro t ht
  obtain ⟨p, hp, rfl⟩ := mem_process_ok hok ht
  refine sinfix_pyStrip (by decide) (by decide) (by decide) ?_
  refine bvpRaw_unknown _ _ _ _ _ ?_
  rw [taskIdOf, hScan]
  rfl

/-- Witness for C9 at `docMyTask` (heading `# My Task`). -/
theorem c9_witness :
    ("TASK ID: db-validation-unknown" : String).data <:+:
      ((tasksOf docMyTask).headD ⟨"", "", false, 0⟩).command.data := by
  obtain ⟨ts, hok, hall⟩ :=
    c9_sentinel_task_id docMyTask (by decide) rfl (by decide) (by decide)
      (by decide) rfl
  have hts : ts = tasksOf docMyTask :=
    Except.ok.inj (hok.symm.trans
      (rfl : process_markdown docMyTask = Except.ok (tasksOf docMyTask)))
  subst hts
  exact hall _ (List.mem_singleton_self _)
